import Mathlib

/-!
Shallow embedding of the CurveSmith custom-curve library
(`DateRange`, `FlightDetails`, `ScheduledEvent`, `CurveTemplate` and the
curve-generation pipeline), together with theorems settling the spec
claims about it.

Modelling conventions:
* a JavaScript `Date` is its millisecond timestamp, an `Int`; an invalid
  date (`NaN` time value) is the constructor `JsDate.invalid`;
* all JavaScript numeric arithmetic on goals and hours is embedded in `ℚ`
  (the operations used are +, -, *, /, comparisons);
* thrown errors are the `CurveError` values of an `Except` result, keeping
  the JavaScript error class (`TypeError`, `RangeError`, plain `Error`)
  and message.
-/

namespace CurveSmith

/-- A thrown JavaScript error: its class and its message. -/
inductive CurveError
  | typeError (msg : String)
  | rangeError (msg : String)
  | domainError (msg : String)
deriving DecidableEq

/-- True exactly on the `typeError` variant. -/
def CurveError.isTypeError : CurveError → Bool
  | .typeError _ => true
  | _ => false

instance {ε α : Type} [DecidableEq ε] [DecidableEq α] : DecidableEq (Except ε α) := by
  intro a b
  cases a <;> cases b
  case error.error x y =>
    exact decidable_of_iff (x = y) (by simp)
  case error.ok x y =>
    exact isFalse (by simp)
  case ok.error x y =>
    exact isFalse (by simp)
  case ok.ok x y =>
    exact decidable_of_iff (x = y) (by simp)

/-- The result of `new Date(x)`: either a valid instant (milliseconds since
the epoch) or an invalid date whose time value is `NaN`. -/
inductive JsDate
  | valid (ms : Int)
  | invalid
deriving DecidableEq

/-- Encapsulates a period of time between two dates (class `DateRange`). -/
structure DateRange where
  start : Int
  end_ : Int
deriving DecidableEq

/-- `DateRange.validate(startDate, endDate)`.  Both arguments arrive as
`Date` objects (the constructor wraps its inputs in `new Date`), so the
`instanceof Date` type check always passes here; the `isNaN(getTime())`
check and the ordering check follow the source order. -/
def DateRange.validate (startDate endDate : JsDate) : Except CurveError Unit :=
  match startDate, endDate with
  | .valid s, .valid e =>
      if s ≥ e then .error (.rangeError "Start date must strictly precede end date")
      else .ok ()
  | _, _ => .error (.rangeError "Input values must be valid dates")

/-- The `DateRange` constructor: `new Date` each argument, validate, store. -/
def DateRange.construct (startDate endDate : JsDate) : Except CurveError DateRange :=
  match DateRange.validate startDate endDate with
  | .error e => .error e
  | .ok _ =>
      match startDate, endDate with
      | .valid s, .valid e => .ok ⟨s, e⟩
      | _, _ => .error (.typeError "unreachable: validate accepted an invalid date")

/-- `DateRange.contains`: true if the provided date range is a subset. -/
def DateRange.contains (self other : DateRange) : Bool :=
  other.start ≥ self.start && other.end_ ≤ self.end_

/-- `DateRange.overlaps`: true if the ranges intersect; adjacent ranges do
not overlap. -/
def DateRange.overlaps (self other : DateRange) : Bool :=
  self.start < other.end_ && self.end_ > other.start

/-- The goal-interpretation mode (`enum GoalType`). -/
inductive GoalType
  | TOTAL
  | DAY
deriving DecidableEq

/-- A line item flight: a date range with an absolute impression goal. -/
structure FlightDetails extends DateRange where
  impressionGoal : ℚ
deriving DecidableEq

/-- A period for which a user requests a skewed delivery goal. -/
structure ScheduledEvent extends DateRange where
  goalPercent : ℚ
  title : String
deriving DecidableEq

/-- `ScheduledEvent.getTitleForCurve`: `this.title ? this.title : 'Untitled'`.
The only falsy string in JavaScript is the empty string. -/
def ScheduledEvent.getTitleForCurve (e : ScheduledEvent) : String :=
  if e.title = "" then "Untitled" else e.title

/-- The mutable accumulator threaded through one generation call. -/
structure GoalContext where
  goalType : GoalType
  impressionGoal : ℚ
  unscheduledHours : ℚ
  unscheduledImpressions : ℚ
  unscheduledPercent : ℚ
deriving DecidableEq

/-- `new GoalContext(goalType, impressionGoal)` with its field initializers. -/
def GoalContext.init (goalType : GoalType) (impressionGoal : ℚ) : GoalContext :=
  { goalType := goalType
    impressionGoal := impressionGoal
    unscheduledHours := 0
    unscheduledImpressions := 0
    unscheduledPercent := 100 }

/-- A curve segment: either a `ScheduledEventSegment` or an
`UnscheduledSegment` (which also stores its `hours`). -/
inductive CurveSegment
  | scheduled (description : String) (start : Int) (goalPercent : ℚ)
  | unscheduled (description : String) (start : Int) (hours : ℚ) (goalPercent : ℚ)
deriving DecidableEq

/-- The `description` field of a segment. -/
def CurveSegment.description : CurveSegment → String
  | .scheduled d _ _ => d
  | .unscheduled d _ _ _ => d

/-- The `start` field of a segment. -/
def CurveSegment.start : CurveSegment → Int
  | .scheduled _ st _ => st
  | .unscheduled _ st _ _ => st

/-- The stored `goalPercent` field of a segment. -/
def CurveSegment.goalPercent : CurveSegment → ℚ
  | .scheduled _ _ g => g
  | .unscheduled _ _ _ g => g

/-- Overwrite the stored `goalPercent` field of a segment. -/
def CurveSegment.setGoalPercent : CurveSegment → ℚ → CurveSegment
  | .scheduled d st _, g => .scheduled d st g
  | .unscheduled d st h _, g => .unscheduled d st h g

/-- `calculateGoal(context)`: returns the computed goal and, because the
`UnscheduledSegment` implementation assigns `this.goalPercent`, the updated
segment.  `ScheduledEventSegment.calculateGoal` returns the precomputed
percentage and leaves the segment unchanged. -/
def CurveSegment.calculateGoal (c : GoalContext) : CurveSegment → ℚ × CurveSegment
  | .scheduled d st g => (g, .scheduled d st g)
  | .unscheduled d st h _ =>
      let unscheduledTimeProportion := h / c.unscheduledHours
      match c.goalType with
      | .DAY =>
          let normalizedImpressionCount :=
            unscheduledTimeProportion * c.unscheduledImpressions
          let g := normalizedImpressionCount * 100 / c.impressionGoal
          (g, .unscheduled d st h g)
      | .TOTAL =>
          let g := unscheduledTimeProportion * c.unscheduledPercent
          (g, .unscheduled d st h g)

/-- `MILLISECONDS_PER_HOUR = 1000 * 60 * 60`. -/
def MILLISECONDS_PER_HOUR : ℚ := 1000 * 60 * 60

/-- `TOTAL_PERCENT_REQUIRED = 100`. -/
def TOTAL_PERCENT_REQUIRED : ℚ := 100

/-- `PERCENT_ERROR_THRESHOLD = 0.001`. -/
def PERCENT_ERROR_THRESHOLD : ℚ := 1 / 1000

/-- `Math.abs(x)` on a finite number. -/
def mathAbs (x : ℚ) : ℚ := if x < 0 then -x else x

theorem mathAbs_eq_abs (x : ℚ) : mathAbs x = |x| := by
  unfold mathAbs
  split
  · rw [abs_of_neg]
    assumption
  · rw [abs_of_nonneg]
    exact le_of_not_lt (by assumption)

/-- `CurveTemplate.hoursBetween`: `(end - start) / MILLISECONDS_PER_HOUR`. -/
def hoursBetween (start end_ : Int) : ℚ :=
  ((end_ : ℚ) - (start : ℚ)) / MILLISECONDS_PER_HOUR

/-- A curve template: the scheduled events and the goal type. -/
structure CurveTemplate where
  events : List ScheduledEvent
  goalType : GoalType
deriving DecidableEq

/-- The loop body of `CurveTemplate.checkDateRanges`, tracking the
previously seen event (`dateRange`, initially `null`). -/
def checkDateRangesLoop (flight : FlightDetails) :
    Option ScheduledEvent → List ScheduledEvent → Except CurveError Unit
  | _, [] => .ok ()
  | prev, event :: rest =>
      if !(flight.toDateRange.contains event.toDateRange) then
        .error (.domainError "Event date range is outside flight range")
      else
        match prev with
        | some dateRange =>
            if event.start < dateRange.start then
              .error (.domainError "Events must be ordered by date")
            else if event.toDateRange.overlaps dateRange.toDateRange then
              .error (.domainError "Events date ranges must never overlap")
            else checkDateRangesLoop flight (some event) rest
        | none => checkDateRangesLoop flight (some event) rest

/-- `CurveTemplate.checkDateRanges(flight)`. -/
def CurveTemplate.checkDateRanges (t : CurveTemplate) (flight : FlightDetails) :
    Except CurveError Unit :=
  checkDateRangesLoop flight none t.events

/-- The event loop of `CurveTemplate.processEventsByTotal`, with the
trailing `Post-Events` gap handling as the base case.  `currentStart` is
the loop cursor; the emitted segments and the final context are returned. -/
def totalLoop (flight : FlightDetails) (c : GoalContext) (currentStart : Int) :
    List ScheduledEvent → Except CurveError (List CurveSegment × GoalContext)
  | [] =>
      let hoursAfterLastEvent := hoursBetween currentStart flight.end_
      if hoursAfterLastEvent > 0 then
        .ok ([CurveSegment.unscheduled "Post-Events" currentStart hoursAfterLastEvent 0],
             { c with unscheduledHours := c.unscheduledHours + hoursAfterLastEvent })
      else .ok ([], c)
  | event :: rest =>
      let eventTitle := event.getTitleForCurve
      let hoursBeforeEvent := hoursBetween currentStart event.start
      let c1 :=
        if hoursBeforeEvent > 0 then
          { c with unscheduledHours := c.unscheduledHours + hoursBeforeEvent }
        else c
      let preSegments : List CurveSegment :=
        if hoursBeforeEvent > 0 then
          [CurveSegment.unscheduled ("Pre-Event [" ++ eventTitle ++ "]")
            currentStart hoursBeforeEvent 0]
        else []
      let eventSegment : CurveSegment :=
        CurveSegment.scheduled eventTitle event.start event.goalPercent
      let c2 := { c1 with unscheduledPercent := c1.unscheduledPercent - event.goalPercent }
      if c2.unscheduledPercent < 0 then
        .error (.domainError "Total goal percent is greater than 100")
      else if c2.unscheduledPercent = 0 ∧ event.end_ < flight.end_ then
        .error (.domainError "The curve cannot end with a 0 percent goal")
      else
        match totalLoop flight c2 event.end_ rest with
        | .error e => .error e
        | .ok (segs, cOut) => .ok (preSegments ++ eventSegment :: segs, cOut)

/-- `CurveTemplate.processEventsByTotal(flight, goalContext)`. -/
def CurveTemplate.processEventsByTotal (t : CurveTemplate) (flight : FlightDetails)
    (goalContext : GoalContext) : Except CurveError (List CurveSegment × GoalContext) :=
  totalLoop flight goalContext flight.start t.events

/-- The event loop of `CurveTemplate.processEventsByDay`, with the trailing
gap handling (including its `unscheduledImpressions` re-check) as the base
case.  `evenDailyGoal` is computed once by the caller. -/
def dayLoop (flight : FlightDetails) (evenDailyGoal : ℚ) (c : GoalContext)
    (currentStart : Int) :
    List ScheduledEvent → Except CurveError (List CurveSegment × GoalContext)
  | [] =>
      let hoursAfterLastEvent := hoursBetween currentStart flight.end_
      if hoursAfterLastEvent > 0 then
        if c.unscheduledImpressions ≤ (0 : ℚ) then
          .error (.domainError "Goal is too large.")
        else
          .ok ([CurveSegment.unscheduled "Post-Events" currentStart hoursAfterLastEvent 0],
               { c with unscheduledHours := c.unscheduledHours + hoursAfterLastEvent })
      else .ok ([], c)
  | event :: rest =>
      let eventTitle := event.getTitleForCurve
      let relativeGoal := event.goalPercent / 100 * evenDailyGoal
      let normalizedPercent := relativeGoal / flight.impressionGoal * 100
      let hoursBeforeEvent := hoursBetween currentStart event.start
      let c1 := { c with unscheduledImpressions := c.unscheduledImpressions - relativeGoal }
      let c2 :=
        if hoursBeforeEvent > 0 then
          { c1 with unscheduledHours := c1.unscheduledHours + hoursBeforeEvent }
        else c1
      let preSegments : List CurveSegment :=
        if hoursBeforeEvent > 0 then
          [CurveSegment.unscheduled ("Pre-Event [" ++ eventTitle ++ "]")
            currentStart hoursBeforeEvent 0]
        else []
      let eventSegment : CurveSegment :=
        CurveSegment.scheduled eventTitle event.start normalizedPercent
      let c3 := { c2 with unscheduledPercent := c2.unscheduledPercent - normalizedPercent }
      if c1.unscheduledImpressions ≤ (0 : ℚ) then
        .error (.domainError "Goal is too large")
      else
        match dayLoop flight evenDailyGoal c3 event.end_ rest with
        | .error e => .error e
        | .ok (segs, cOut) => .ok (preSegments ++ eventSegment :: segs, cOut)

/-- `CurveTemplate.processEventsByDay(flight, goalContext)`: initializes
`unscheduledImpressions` to the flight goal, computes `evenDailyGoal`, and
runs the event loop. -/
def CurveTemplate.processEventsByDay (t : CurveTemplate) (flight : FlightDetails)
    (goalContext : GoalContext) : Except CurveError (List CurveSegment × GoalContext) :=
  let c0 := { goalContext with unscheduledImpressions := flight.impressionGoal }
  let flightHours := hoursBetween flight.start flight.end_
  let evenDailyGoal := flight.impressionGoal / flightHours * 24
  dayLoop flight evenDailyGoal c0 flight.start t.events

/-- The mode dispatch (`switch (this.goalType)`) of `generateCurveSegments`. -/
def CurveTemplate.partitionEvents (t : CurveTemplate) (flight : FlightDetails)
    (goalContext : GoalContext) : Except CurveError (List CurveSegment × GoalContext) :=
  match t.goalType with
  | .DAY => t.processEventsByDay flight goalContext
  | .TOTAL => t.processEventsByTotal flight goalContext

/-- The `segments.reduce((sum, x) => sum + x.calculateGoal(goalContext), 0)`
pass: the total of the calculated goals, and the segments with their
`goalPercent` fields updated by `calculateGoal`. -/
def resolveSegments (c : GoalContext) : List CurveSegment → ℚ × List CurveSegment
  | [] => (0, [])
  | s :: rest =>
      let r := CurveSegment.calculateGoal c s
      let rec_ := resolveSegments c rest
      (r.1 + rec_.1, r.2 :: rec_.2)

/-- The reconciliation step of `generateCurveSegments`: reject a total that
deviates from 100 by more than the threshold, otherwise add the difference
to the last segment's goal.  On an empty list the JavaScript
`segments[segments.length - 1].goalPercent` access would throw a
`TypeError` (this branch is unreachable from the pipeline, where an empty
list sums to 0 and is rejected by the threshold check first). -/
def reconcile (segments : List CurveSegment) (totalGoalPercent : ℚ) :
    Except CurveError (List CurveSegment) :=
  let difference := TOTAL_PERCENT_REQUIRED - totalGoalPercent
  if mathAbs difference > PERCENT_ERROR_THRESHOLD then
    .error (.domainError "Total goal percent must equal 100")
  else
    match segments.getLast? with
    | none => .error (.typeError "Cannot read properties of undefined")
    | some last =>
        .ok (segments.dropLast ++
          [last.setGoalPercent (last.goalPercent + difference)])

/-- `CurveTemplate.generateCurveSegments(flight)`: validate date ranges,
partition by mode, resolve goals, reconcile to exactly 100. -/
def CurveTemplate.generateCurveSegments (t : CurveTemplate) (flight : FlightDetails) :
    Except CurveError (List CurveSegment) :=
  match t.checkDateRanges flight with
  | .error e => .error e
  | .ok _ =>
      match t.partitionEvents flight (GoalContext.init t.goalType flight.impressionGoal) with
      | .error e => .error e
      | .ok (segments, goalContext) =>
          let r := resolveSegments goalContext segments
          reconcile r.2 r.1

/-! ### Helper lemmas -/

theorem hoursBetween_pos_iff (a b : Int) : 0 < hoursBetween a b ↔ a < b := by
  unfold hoursBetween MILLISECONDS_PER_HOUR
  rw [div_pos_iff]
  constructor
  · rintro (⟨h, -⟩ | ⟨-, h⟩)
    · exact_mod_cast sub_pos.mp h
    · norm_num at h
  · intro h
    refine Or.inl ⟨?_, by norm_num⟩
    rw [sub_pos]
    exact_mod_cast h

theorem calculateGoal_snd_goalPercent (c : GoalContext) (s : CurveSegment) :
    ((CurveSegment.calculateGoal c s).2).goalPercent = (CurveSegment.calculateGoal c s).1 := by
  cases s with
  | scheduled d st g => rfl
  | unscheduled d st h g =>
      cases hgt : c.goalType <;>
        simp [CurveSegment.calculateGoal, hgt, CurveSegment.goalPercent]

theorem calculateGoal_snd_start (c : GoalContext) (s : CurveSegment) :
    ((CurveSegment.calculateGoal c s).2).start = s.start := by
  cases s with
  | scheduled d st g => rfl
  | unscheduled d st h g =>
      cases hgt : c.goalType <;>
        simp [CurveSegment.calculateGoal, hgt, CurveSegment.start]

theorem setGoalPercent_start (s : CurveSegment) (g : ℚ) :
    (s.setGoalPercent g).start = s.start := by
  cases s <;> rfl

theorem setGoalPercent_goalPercent (s : CurveSegment) (g : ℚ) :
    (s.setGoalPercent g).goalPercent = g := by
  cases s <;> rfl

theorem resolveSegments_eq_map (c : GoalContext) (segs : List CurveSegment) :
    resolveSegments c segs =
      ((segs.map fun s => (CurveSegment.calculateGoal c s).1).sum,
       segs.map fun s => (CurveSegment.calculateGoal c s).2) := by
  induction segs with
  | nil => rfl
  | cons s rest ih => simp [resolveSegments, ih]

theorem resolveSegments_fst_eq_sum (c : GoalContext) (segs : List CurveSegment) :
    (resolveSegments c segs).1 =
      ((resolveSegments c segs).2.map CurveSegment.goalPercent).sum := by
  rw [resolveSegments_eq_map]
  simp [List.map_map, Function.comp_def, calculateGoal_snd_goalPercent]

theorem resolveSegments_map_start (c : GoalContext) (segs : List CurveSegment) :
    (resolveSegments c segs).2.map CurveSegment.start = segs.map CurveSegment.start := by
  rw [resolveSegments_eq_map]
  simp [List.map_map, Function.comp_def, calculateGoal_snd_start]

theorem reconcile_eq (segs : List CurveSegment) (T : ℚ) :
    reconcile segs T =
      if mathAbs (TOTAL_PERCENT_REQUIRED - T) > PERCENT_ERROR_THRESHOLD then
        .error (.domainError "Total goal percent must equal 100")
      else
        match segs.getLast? with
        | none => .error (.typeError "Cannot read properties of undefined")
        | some last =>
            .ok (segs.dropLast ++
              [last.setGoalPercent (last.goalPercent + (TOTAL_PERCENT_REQUIRED - T))]) :=
  rfl

theorem reconcile_ok_sum (segs : List CurveSegment) (T : ℚ) (out : List CurveSegment)
    (hsum : (segs.map CurveSegment.goalPercent).sum = T)
    (hok : reconcile segs T = .ok out) :
    (out.map CurveSegment.goalPercent).sum = 100 := by
  rw [reconcile_eq] at hok
  by_cases habs : mathAbs (TOTAL_PERCENT_REQUIRED - T) > PERCENT_ERROR_THRESHOLD
  · rw [if_pos habs] at hok
    exact absurd hok (by simp)
  · rw [if_neg habs] at hok
    cases hl : segs.getLast? with
    | none => rw [hl] at hok; exact absurd hok (by simp)
    | some last =>
        rw [hl] at hok
        simp only [Except.ok.injEq] at hok
        have hne : segs ≠ [] := by
          intro hnil
          rw [hnil] at hl
          exact absurd hl (by simp)
        have hgl : segs.getLast hne = last := by
          rw [List.getLast?_eq_getLast segs hne] at hl
          injection hl
        have hsplit := List.dropLast_append_getLast hne
        have hsum2 : (segs.dropLast.map CurveSegment.goalPercent).sum +
            last.goalPercent = T := by
          rw [← hsum, ← hgl]
          conv_rhs => rw [← hsplit]
          simp
        rw [← hok]
        simp only [List.map_append, List.sum_append, List.map_cons, List.map_nil,
          List.sum_cons, List.sum_nil, setGoalPercent_goalPercent,
          TOTAL_PERCENT_REQUIRED]
        linarith

theorem reconcile_ok_starts (segs : List CurveSegment) (T : ℚ) (out : List CurveSegment)
    (hok : reconcile segs T = .ok out) :
    out.map CurveSegment.start = segs.map CurveSegment.start ∧
      segs ≠ [] ∧ out ≠ [] := by
  rw [reconcile_eq] at hok
  by_cases habs : mathAbs (TOTAL_PERCENT_REQUIRED - T) > PERCENT_ERROR_THRESHOLD
  · rw [if_pos habs] at hok
    exact absurd hok (by simp)
  · rw [if_neg habs] at hok
    cases hl : segs.getLast? with
    | none => rw [hl] at hok; exact absurd hok (by simp)
    | some last =>
        rw [hl] at hok
        simp only [Except.ok.injEq] at hok
        have hne : segs ≠ [] := by
          intro hnil
          rw [hnil] at hl
          exact absurd hl (by simp)
        have hgl : segs.getLast hne = last := by
          rw [List.getLast?_eq_getLast segs hne] at hl
          injection hl
        refine ⟨?_, hne, ?_⟩
        · rw [← hok]
          have hsplit := congrArg (List.map CurveSegment.start)
            (List.dropLast_append_getLast hne)
          rw [hgl] at hsplit
          rw [← hsplit]
          simp [setGoalPercent_start]
        · rw [← hok]
          simp

/-! ### Claim theorems -/

/-- C1: whenever `generateCurveSegments` returns normally, the
`goalPercent` values of the returned segments sum to exactly 100 after the
reconciliation step. -/
theorem generateCurveSegments_sum_100 (t : CurveTemplate) (flight : FlightDetails)
    (segs : List CurveSegment)
    (h : t.generateCurveSegments flight = .ok segs) :
    (segs.map CurveSegment.goalPercent).sum = 100 := by
  unfold CurveTemplate.generateCurveSegments at h
  cases hchk : t.checkDateRanges flight with
  | error e => rw [hchk] at h; exact absurd h (by simp)
  | ok u =>
      cases u
      rw [hchk] at h
      cases hpart : t.partitionEvents flight
          (GoalContext.init t.goalType flight.impressionGoal) with
      | error e => rw [hpart] at h; exact absurd h (by simp)
      | ok r =>
          obtain ⟨L, c⟩ := r
          rw [hpart] at h
          exact reconcile_ok_sum (resolveSegments c L).2 (resolveSegments c L).1
            segs (resolveSegments_fst_eq_sum c L).symm h

/-- C1 witness: a one-hour flight with no events returns a single segment
whose goals sum to 100. -/
theorem generateCurveSegments_sum_100_witness :
    (([CurveSegment.unscheduled "Post-Events" 0 1 100]).map
      CurveSegment.goalPercent).sum = 100 :=
  generateCurveSegments_sum_100 ⟨[], .TOTAL⟩ ⟨⟨0, 3600000⟩, 100⟩
    [CurveSegment.unscheduled "Post-Events" 0 1 100] (by
      norm_num [CurveTemplate.generateCurveSegments, CurveTemplate.checkDateRanges,
        checkDateRangesLoop, CurveTemplate.partitionEvents,
        CurveTemplate.processEventsByTotal, totalLoop, hoursBetween,
        MILLISECONDS_PER_HOUR, resolveSegments, CurveSegment.calculateGoal,
        reconcile, GoalContext.init, mathAbs, TOTAL_PERCENT_REQUIRED,
        PERCENT_ERROR_THRESHOLD, CurveSegment.setGoalPercent,
        CurveSegment.goalPercent])

/-- C6: `generateCurveSegments` validates event placement before any
allocation math.  Walking the events in order, the first event outside the
flight range, starting before its predecessor, or overlapping its
predecessor aborts the call with the corresponding error, and a call that
raises a placement error produces no segments (its result is exactly that
error). -/
theorem checkDateRanges_first_violation (t : CurveTemplate) (flight : FlightDetails)
    (prev : Option ScheduledEvent) (p event : ScheduledEvent)
    (rest : List ScheduledEvent) (err : CurveError) :
    (t.checkDateRanges flight = checkDateRangesLoop flight none t.events) ∧
    (flight.toDateRange.contains event.toDateRange = false →
      checkDateRangesLoop flight prev (event :: rest) =
        .error (.domainError "Event date range is outside flight range")) ∧
    (flight.toDateRange.contains event.toDateRange = true →
      event.start < p.start →
      checkDateRangesLoop flight (some p) (event :: rest) =
        .error (.domainError "Events must be ordered by date")) ∧
    (flight.toDateRange.contains event.toDateRange = true →
      ¬ event.start < p.start →
      event.toDateRange.overlaps p.toDateRange = true →
      checkDateRangesLoop flight (some p) (event :: rest) =
        .error (.domainError "Events date ranges must never overlap")) ∧
    (flight.toDateRange.contains event.toDateRange = true →
      checkDateRangesLoop flight none (event :: rest) =
        checkDateRangesLoop flight (some event) rest) ∧
    (flight.toDateRange.contains event.toDateRange = true →
      ¬ event.start < p.start →
      event.toDateRange.overlaps p.toDateRange = false →
      checkDateRangesLoop flight (some p) (event :: rest) =
        checkDateRangesLoop flight (some event) rest) ∧
    (t.checkDateRanges flight = .error err →
      t.generateCurveSegments flight = .error err) := by
  refine ⟨rfl, ?_, ?_, ?_, ?_, ?_, ?_⟩
  · intro hcont
    simp [checkDateRangesLoop, hcont]
  · intro hcont hord
    simp [checkDateRangesLoop, hcont, if_pos hord]
  · intro hcont hord hovl
    simp [checkDateRangesLoop, hcont, if_neg hord, hovl]
  · intro hcont
    simp [checkDateRangesLoop, hcont]
  · intro hcont hord hovl
    simp [checkDateRangesLoop, hcont, if_neg hord, hovl]
  · intro herr
    unfold CurveTemplate.generateCurveSegments
    rw [herr]

/-- C6 witness: an event outside the flight range triggers the placement
error. -/
theorem checkDateRanges_first_violation_witness :
    checkDateRangesLoop ⟨⟨0, 100⟩, 10⟩ none [⟨⟨200, 300⟩, 10, "A"⟩] =
      .error (.domainError "Event date range is outside flight range") :=
  (checkDateRanges_first_violation ⟨[], .TOTAL⟩ ⟨⟨0, 100⟩, 10⟩ none
      ⟨⟨200, 300⟩, 10, "A"⟩ ⟨⟨200, 300⟩, 10, "A"⟩ []
      (.domainError "x")).2.1 (by decide)


/-- C4: a scheduled segment resolves to its precomputed percentage
unchanged; a filler segment resolves to `timeProportion` (its hours over
the total unscheduled hours) times, in TOTAL mode, the context's
`unscheduledPercent`, and in DAY mode, `unscheduledImpressions` converted
to a percentage of the whole flight goal; and the resolution pass maps
every segment through `calculateGoal` with the same partition-time context
(no filler segment decrements it for the others). -/
theorem calculateGoal_resolution_formulas (d : String) (st : Int) (h g : ℚ)
    (c : GoalContext) :
    (CurveSegment.calculateGoal c (.scheduled d st g) = (g, .scheduled d st g)) ∧
    (c.goalType = .TOTAL →
      (CurveSegment.calculateGoal c (.unscheduled d st h g)).1 =
        h / c.unscheduledHours * c.unscheduledPercent) ∧
    (c.goalType = .DAY →
      (CurveSegment.calculateGoal c (.unscheduled d st h g)).1 =
        h / c.unscheduledHours * c.unscheduledImpressions * 100 / c.impressionGoal) ∧
    (∀ segs : List CurveSegment,
      resolveSegments c segs =
        ((segs.map fun s => (CurveSegment.calculateGoal c s).1).sum,
         segs.map fun s => (CurveSegment.calculateGoal c s).2)) := by
  refine ⟨rfl, ?_, ?_, resolveSegments_eq_map c⟩
  · intro hgt
    simp [CurveSegment.calculateGoal, hgt]
  · intro hgt
    simp [CurveSegment.calculateGoal, hgt, mul_div_assoc]

/-- C4 witness: the TOTAL-mode filler formula evaluated at a concrete
context. -/
theorem calculateGoal_resolution_formulas_witness :
    (CurveSegment.calculateGoal ⟨.TOTAL, 100, 4, 0, 60⟩
      (.unscheduled "Post-Events" 0 1 0)).1 = 1 / 4 * 60 :=
  (calculateGoal_resolution_formulas "Post-Events" 0 1 0 ⟨.TOTAL, 100, 4, 0, 60⟩).2.1 rfl

/-- C2: in TOTAL mode, processing one event subtracts its `goalPercent`
from `unscheduledPercent`; if the result is negative the call fails with
"Total goal percent is greater than 100"; if the result is exactly zero
while the event ends strictly before the flight end the call fails with
"The curve cannot end with a 0 percent goal"; otherwise the loop emits the
event's segments and continues with the remaining events. -/
theorem totalLoop_overallocation_checks (flight : FlightDetails) (c : GoalContext)
    (currentStart : Int) (event : ScheduledEvent) (rest : List ScheduledEvent) :
    (c.unscheduledPercent - event.goalPercent < 0 →
      totalLoop flight c currentStart (event :: rest) =
        .error (.domainError "Total goal percent is greater than 100")) ∧
    (c.unscheduledPercent - event.goalPercent = 0 → event.end_ < flight.end_ →
      totalLoop flight c currentStart (event :: rest) =
        .error (.domainError "The curve cannot end with a 0 percent goal")) ∧
    (¬ c.unscheduledPercent - event.goalPercent < 0 →
      ¬ (c.unscheduledPercent - event.goalPercent = 0 ∧ event.end_ < flight.end_) →
      totalLoop flight c currentStart (event :: rest) =
        Except.map
          (fun r =>
            ((if 0 < hoursBetween currentStart event.start then
                [CurveSegment.unscheduled
                  ("Pre-Event [" ++ event.getTitleForCurve ++ "]")
                  currentStart (hoursBetween currentStart event.start) 0]
              else []) ++
              CurveSegment.scheduled event.getTitleForCurve event.start
                event.goalPercent :: r.1,
             r.2))
          (totalLoop flight
            { goalType := c.goalType
              impressionGoal := c.impressionGoal
              unscheduledHours :=
                if 0 < hoursBetween currentStart event.start then
                  c.unscheduledHours + hoursBetween currentStart event.start
                else c.unscheduledHours
              unscheduledImpressions := c.unscheduledImpressions
              unscheduledPercent := c.unscheduledPercent - event.goalPercent }
            event.end_ rest)) := by
  have hup :
      (if 0 < hoursBetween currentStart event.start then
          { c with unscheduledHours := c.unscheduledHours + hoursBetween currentStart event.start }
        else c).unscheduledPercent = c.unscheduledPercent := by
    split <;> rfl
  refine ⟨?_, ?_, ?_⟩
  · intro hneg
    simp only [totalLoop, hup]
    rw [if_pos hneg]
  · intro hzero hend
    simp only [totalLoop, hup]
    rw [if_neg (by rw [hzero]; exact lt_irrefl 0), if_pos ⟨hzero, hend⟩]
  · intro hnneg hnzero
    simp only [totalLoop, hup]
    rw [if_neg hnneg, if_neg hnzero]
    have hc :
        (if 0 < hoursBetween currentStart event.start then
            { c with unscheduledHours := c.unscheduledHours + hoursBetween currentStart event.start }
          else c) =
          ({ goalType := c.goalType
             impressionGoal := c.impressionGoal
             unscheduledHours :=
               if 0 < hoursBetween currentStart event.start then
                 c.unscheduledHours + hoursBetween currentStart event.start
               else c.unscheduledHours
             unscheduledImpressions := c.unscheduledImpressions
             unscheduledPercent := c.unscheduledPercent } : GoalContext) := by
      split <;> rfl
    rw [hc]
    cases totalLoop flight
        { goalType := c.goalType
          impressionGoal := c.impressionGoal
          unscheduledHours :=
            if 0 < hoursBetween currentStart event.start then
              c.unscheduledHours + hoursBetween currentStart event.start
            else c.unscheduledHours
          unscheduledImpressions := c.unscheduledImpressions
          unscheduledPercent := c.unscheduledPercent - event.goalPercent }
        event.end_ rest with
    | error e => rfl
    | ok r => rfl

/-- C2 witness: an event claiming 150% of a 100% budget fails with the
over-allocation error. -/
theorem totalLoop_overallocation_checks_witness :
    totalLoop ⟨⟨0, 7200000⟩, 100⟩ (GoalContext.init .TOTAL 100) 0
        [⟨⟨0, 3600000⟩, 150, "A"⟩] =
      .error (.domainError "Total goal percent is greater than 100") :=
  (totalLoop_overallocation_checks ⟨⟨0, 7200000⟩, 100⟩ (GoalContext.init .TOTAL 100) 0
      ⟨⟨0, 3600000⟩, 150, "A"⟩ []).1 (by norm_num [GoalContext.init])

/-- C3: DAY mode initializes `unscheduledImpressions` to the full flight
impression goal and uses `evenDailyGoal = impressionGoal / flightHours * 24`;
processing an event subtracts `relativeGoal = goalPercent / 100 *
evenDailyGoal` from `unscheduledImpressions` and fails with "Goal is too
large" whenever this drives it to zero or below; and when a
positive-duration gap follows the last event, the loop fails with the
trailing "Goal is too large." error if `unscheduledImpressions` is zero or
below before emitting the Post-Events filler. -/
theorem dayLoop_goal_too_large_checks (t : CurveTemplate) (flight : FlightDetails)
    (goalContext c : GoalContext) (currentStart : Int) (evenDailyGoal : ℚ)
    (event : ScheduledEvent) (rest : List ScheduledEvent) :
    (t.processEventsByDay flight goalContext =
      dayLoop flight
        (flight.impressionGoal / hoursBetween flight.start flight.end_ * 24)
        { goalContext with unscheduledImpressions := flight.impressionGoal }
        flight.start t.events) ∧
    (c.unscheduledImpressions -
        event.goalPercent / 100 *
          (flight.impressionGoal / hoursBetween flight.start flight.end_ * 24) ≤ 0 →
      dayLoop flight
          (flight.impressionGoal / hoursBetween flight.start flight.end_ * 24)
          c currentStart (event :: rest) =
        .error (.domainError "Goal is too large")) ∧
    (0 < hoursBetween currentStart flight.end_ → c.unscheduledImpressions ≤ 0 →
      dayLoop flight evenDailyGoal c currentStart [] =
        .error (.domainError "Goal is too large.")) := by
  refine ⟨rfl, ?_, ?_⟩
  · intro hle
    simp only [dayLoop]
    rw [if_pos hle]
  · intro hgap hle
    simp only [dayLoop]
    rw [if_pos hgap, if_pos hle]

/-- C3 witness: a DAY-mode event demanding 200% of the even daily goal on a
24-hour flight exhausts the whole impression budget and fails. -/
theorem dayLoop_goal_too_large_checks_witness :
    dayLoop ⟨⟨0, 86400000⟩, 100⟩
        ((100 : ℚ) / hoursBetween 0 86400000 * 24)
        { GoalContext.init .DAY 100 with unscheduledImpressions := 100 } 0
        [⟨⟨0, 3600000⟩, 200, "A"⟩] =
      .error (.domainError "Goal is too large") :=
  (dayLoop_goal_too_large_checks ⟨[], .DAY⟩ ⟨⟨0, 86400000⟩, 100⟩
      (GoalContext.init .DAY 100)
      { GoalContext.init .DAY 100 with unscheduledImpressions := 100 } 0 0
      ⟨⟨0, 3600000⟩, 200, "A"⟩ []).2.1
    (by norm_num [GoalContext.init, hoursBetween, MILLISECONDS_PER_HOUR])

/-- C7 counterexample: an argument that does not resolve to a valid time
value makes the constructor raise a `RangeError` ("Input values must be
valid dates"), not a `TypeError`. -/
theorem dateRange_construct_invalid_is_rangeError :
    DateRange.construct .invalid (.valid 0) =
      .error (.rangeError "Input values must be valid dates") ∧
    (CurveError.rangeError "Input values must be valid dates").isTypeError = false :=
  ⟨rfl, rfl⟩

/-- C7 (amended): the constructor fails with a range error whenever either
argument does not resolve to a valid time value, fails with a range error
whenever the start instant is not strictly before the end instant, and
succeeds for any start strictly before end. -/
theorem dateRange_construct_spec (s e : Int) (d : JsDate) :
    (DateRange.construct .invalid d =
      .error (.rangeError "Input values must be valid dates")) ∧
    (DateRange.construct d .invalid =
      .error (.rangeError "Input values must be valid dates")) ∧
    (s ≥ e → DateRange.construct (.valid s) (.valid e) =
      .error (.rangeError "Start date must strictly precede end date")) ∧
    (s < e → DateRange.construct (.valid s) (.valid e) = .ok ⟨s, e⟩) := by
  refine ⟨?_, ?_, ?_, ?_⟩
  · cases d <;> rfl
  · cases d <;> rfl
  · intro h
    simp [DateRange.construct, DateRange.validate, if_pos h]
  · intro h
    simp [DateRange.construct, DateRange.validate, if_neg (not_le.mpr h)]

/-- C7 witness: a strictly ordered pair of valid instants constructs
successfully. -/
theorem dateRange_construct_spec_witness :
    DateRange.construct (.valid 0) (.valid 1) = .ok ⟨0, 1⟩ :=
  (dateRange_construct_spec 0 1 .invalid).2.2.2 (by decide)

/-- C9 counterexample: a whitespace-only title is truthy in JavaScript, so
`getTitleForCurve` returns it unchanged instead of "Untitled". -/
theorem getTitleForCurve_blank_title_kept :
    ScheduledEvent.getTitleForCurve ⟨⟨0, 1⟩, 50, " "⟩ = " " ∧ " " ≠ "Untitled" := by
  exact ⟨rfl, by decide⟩

/-- C9 (amended): reading an event's title for curve labels resolves an
empty title to the literal "Untitled" at read time only, while any
non-empty title — including a whitespace-only one — is returned unchanged;
the stored title field itself is never rewritten. -/
theorem getTitleForCurve_spec (e : ScheduledEvent) :
    (e.title = "" → e.getTitleForCurve = "Untitled") ∧
    (e.title ≠ "" → e.getTitleForCurve = e.title) := by
  constructor
  · intro h
    simp [ScheduledEvent.getTitleForCurve, h]
  · intro h
    simp [ScheduledEvent.getTitleForCurve, h]

/-- C9 witness: an empty title reads as "Untitled". -/
theorem getTitleForCurve_spec_witness :
    ScheduledEvent.getTitleForCurve ⟨⟨0, 1⟩, 50, ""⟩ = "Untitled" :=
  (getTitleForCurve_spec ⟨⟨0, 1⟩, 50, ""⟩).1 rfl

/-- C8 counterexample: a valid flight (start strictly before end,
non-negative impression goal) with a zero impression goal makes DAY mode
throw "Goal is too large." on an empty event list instead of returning the
single 100% Post-Events segment. -/
theorem generateCurveSegments_day_zero_goal_fails :
    (0 : Int) < 3600000 ∧ (0 : ℚ) ≤ 0 ∧
    CurveTemplate.generateCurveSegments ⟨[], .DAY⟩ ⟨⟨0, 3600000⟩, 0⟩ =
      .error (.domainError "Goal is too large.") := by
  refine ⟨by norm_num, le_refl 0, ?_⟩
  norm_num [CurveTemplate.generateCurveSegments, CurveTemplate.checkDateRanges,
    checkDateRangesLoop, CurveTemplate.partitionEvents,
    CurveTemplate.processEventsByDay, dayLoop, hoursBetween,
    MILLISECONDS_PER_HOUR, GoalContext.init]

/-- C8 (amended): for every valid flight and an empty scheduled-event
list, TOTAL mode returns exactly one filler segment described
"Post-Events" starting at the flight start with `goalPercent = 100`; DAY
mode does the same provided the flight impression goal is positive. -/
theorem generateCurveSegments_no_events (flight : FlightDetails)
    (hf : flight.start < flight.end_) :
    (CurveTemplate.generateCurveSegments ⟨[], .TOTAL⟩ flight =
      .ok [.unscheduled "Post-Events" flight.start
            (hoursBetween flight.start flight.end_) 100]) ∧
    (0 < flight.impressionGoal →
      CurveTemplate.generateCurveSegments ⟨[], .DAY⟩ flight =
        .ok [.unscheduled "Post-Events" flight.start
              (hoursBetween flight.start flight.end_) 100]) := by
  have hH : (0:ℚ) < hoursBetween flight.start flight.end_ :=
    (hoursBetween_pos_iff _ _).mpr hf
  have hH0 : hoursBetween flight.start flight.end_ ≠ 0 := ne_of_gt hH
  constructor
  · simp only [CurveTemplate.generateCurveSegments, CurveTemplate.checkDateRanges,
      checkDateRangesLoop, CurveTemplate.partitionEvents,
      CurveTemplate.processEventsByTotal, totalLoop, GoalContext.init,
      gt_iff_lt, hH, if_true, resolveSegments, CurveSegment.calculateGoal,
      reconcile_eq, mathAbs, TOTAL_PERCENT_REQUIRED, PERCENT_ERROR_THRESHOLD,
      CurveSegment.setGoalPercent, CurveSegment.goalPercent, zero_add,
      div_self hH0, one_mul]
    norm_num
  · intro hig
    have hig0 : flight.impressionGoal ≠ 0 := ne_of_gt hig
    have hnle : ¬ flight.impressionGoal ≤ (0:ℚ) := not_le.mpr hig
    have hg : flight.impressionGoal * 100 / flight.impressionGoal = 100 := by
      rw [mul_comm, mul_div_assoc, div_self hig0, mul_one]
    simp only [CurveTemplate.generateCurveSegments, CurveTemplate.checkDateRanges,
      checkDateRangesLoop, CurveTemplate.partitionEvents,
      CurveTemplate.processEventsByDay, dayLoop, GoalContext.init,
      gt_iff_lt, hH, if_true, hnle, if_false, resolveSegments,
      CurveSegment.calculateGoal, reconcile_eq, mathAbs, TOTAL_PERCENT_REQUIRED,
      PERCENT_ERROR_THRESHOLD, CurveSegment.setGoalPercent,
      CurveSegment.goalPercent, zero_add, div_self hH0, one_mul, hg]
    norm_num

/-- C8 witness: the amended statement evaluated on a one-hour flight. -/
theorem generateCurveSegments_no_events_witness :
    CurveTemplate.generateCurveSegments ⟨[], .TOTAL⟩ ⟨⟨0, 3600000⟩, 100⟩ =
      .ok [.unscheduled "Post-Events" 0 (hoursBetween 0 3600000) 100] :=
  (generateCurveSegments_no_events ⟨⟨0, 3600000⟩, 100⟩ (by norm_num)).1

/-- Sequential placement of events within a flight, as established by
`checkDateRanges`: each event starts no earlier than the running cursor,
is non-degenerate, ends within the flight, and the cursor advances to its
end. -/
def wellPlaced (flightEnd : Int) : Int → List ScheduledEvent → Prop
  | _, [] => True
  | cs, e :: rest =>
      cs ≤ e.start ∧ e.start < e.end_ ∧ e.end_ ≤ flightEnd ∧
        wellPlaced flightEnd e.end_ rest

theorem checkDateRangesLoop_wellPlaced (flight : FlightDetails) :
    ∀ (events : List ScheduledEvent) (prev : Option ScheduledEvent),
      checkDateRangesLoop flight prev events = .ok () →
      (∀ e ∈ events, e.start < e.end_) →
      wellPlaced flight.end_
        (match prev with | none => flight.start | some p => p.end_) events := by
  intro events
  induction events with
  | nil =>
      intro prev _ _
      cases prev <;> trivial
  | cons e rest ih =>
      intro prev hok hval
      have hee : e.start < e.end_ := hval e (List.mem_cons_self e rest)
      have hrest : ∀ x ∈ rest, x.start < x.end_ :=
        fun x hx => hval x (List.mem_cons_of_mem e hx)
      cases prev with
      | none =>
          simp only [checkDateRangesLoop] at hok
          cases hcont : flight.toDateRange.contains e.toDateRange with
          | false => rw [hcont] at hok; simp at hok
          | true =>
              rw [hcont] at hok
              simp only [Bool.not_true, Bool.false_eq_true, if_false] at hok
              simp only [DateRange.contains, Bool.and_eq_true, ge_iff_le,
                decide_eq_true_eq] at hcont
              exact ⟨hcont.1, hee, hcont.2, ih (some e) hok hrest⟩
      | some p =>
          simp only [checkDateRangesLoop] at hok
          cases hcont : flight.toDateRange.contains e.toDateRange with
          | false => rw [hcont] at hok; simp at hok
          | true =>
              rw [hcont] at hok
              simp only [Bool.not_true, Bool.false_eq_true, if_false] at hok
              simp only [DateRange.contains, Bool.and_eq_true, ge_iff_le,
                decide_eq_true_eq] at hcont
              split at hok
              · simp at hok
              split at hok
              · simp at hok
              rename_i hord hovl
              simp only [DateRange.overlaps, Bool.and_eq_true,
                decide_eq_true_eq, not_and, not_lt, gt_iff_lt] at hovl
              refine ⟨?_, hee, hcont.2, ih (some e) hok hrest⟩
              by_contra hlt
              push_neg at hlt
              have h1 : p.start ≤ e.start := not_lt.mp hord
              have h2 : e.end_ ≤ p.start := hovl hlt
              omega

theorem chain'_lt_cons_of_head (a : Int) (l : List Int)
    (hl : l.Chain' (· < ·)) (h : ∀ b ∈ l.head?, a < b) :
    (a :: l).Chain' (· < ·) :=
  List.chain'_cons'.mpr ⟨h, hl⟩

theorem totalLoop_shape (flight : FlightDetails) :
    ∀ (events : List ScheduledEvent) (c : GoalContext) (cs : Int)
      (L : List CurveSegment) (cOut : GoalContext),
      wellPlaced flight.end_ cs events →
      totalLoop flight c cs events = .ok (L, cOut) →
      ((L.map CurveSegment.start).Chain' (· < ·) ∧
        (L = [] ∨ (L.map CurveSegment.start).head? = some cs)) := by
  intro events
  induction events with
  | nil =>
      intro c cs L cOut hwp hok
      simp only [totalLoop, gt_iff_lt] at hok
      by_cases hgap : 0 < hoursBetween cs flight.end_
      · rw [if_pos hgap] at hok
        simp only [Except.ok.injEq, Prod.mk.injEq] at hok
        obtain ⟨hL, -⟩ := hok
        subst hL
        refine ⟨by simp, Or.inr ?_⟩
        simp [CurveSegment.start]
      · rw [if_neg hgap] at hok
        simp only [Except.ok.injEq, Prod.mk.injEq] at hok
        obtain ⟨hL, -⟩ := hok
        subst hL
        exact ⟨by simp, Or.inl rfl⟩
  | cons e rest ih =>
      intro c cs L cOut hwp hok
      obtain ⟨hcs, hee, hef, hwp'⟩ := hwp
      have hup : ∀ (d : GoalContext) (q : ℚ) (b : Prop) (inst : Decidable b),
          (if b then { d with unscheduledHours := q } else d).unscheduledPercent
            = d.unscheduledPercent := by
        intro d q b inst
        split <;> rfl
      simp only [totalLoop, gt_iff_lt, hup] at hok
      split at hok
      · simp at hok
      split at hok
      · simp at hok
      split at hok
      · simp at hok
      rename_i hneg hnzero segs cOut' heq
      simp only [Except.ok.injEq, Prod.mk.injEq] at hok
      obtain ⟨hL, -⟩ := hok
      obtain ⟨ihChain, ihHead⟩ := ih _ e.end_ segs cOut' hwp' heq
      have hheadcond : ∀ b ∈ (segs.map CurveSegment.start).head?, e.start < b := by
        intro b hb
        rcases ihHead with hnil | hhead
        · subst hnil; simp at hb
        · rw [hhead] at hb
          simp only [Option.mem_def, Option.some.injEq] at hb
          subst hb
          exact hee
      by_cases hgap : 0 < hoursBetween cs e.start
      · rw [if_pos hgap] at hL
        subst hL
        refine ⟨?_, Or.inr ?_⟩
        · simp only [List.singleton_append, List.map_cons, CurveSegment.start]
          exact List.chain'_cons.mpr
            ⟨(hoursBetween_pos_iff cs e.start).mp hgap,
             chain'_lt_cons_of_head _ _ ihChain hheadcond⟩
        · simp [CurveSegment.start]
      · rw [if_neg hgap] at hL
        rw [List.nil_append] at hL
        subst hL
        have hstart : e.start = cs :=
          le_antisymm
            (not_lt.mp fun hlt => hgap ((hoursBetween_pos_iff _ _).mpr hlt)) hcs
        refine ⟨?_, Or.inr ?_⟩
        · simp only [List.map_cons, CurveSegment.start]
          exact chain'_lt_cons_of_head _ _ ihChain hheadcond
        · simp [CurveSegment.start, hstart]

theorem dayLoop_shape (flight : FlightDetails) (evenDailyGoal : ℚ) :
    ∀ (events : List ScheduledEvent) (c : GoalContext) (cs : Int)
      (L : List CurveSegment) (cOut : GoalContext),
      wellPlaced flight.end_ cs events →
      dayLoop flight evenDailyGoal c cs events = .ok (L, cOut) →
      ((L.map CurveSegment.start).Chain' (· < ·) ∧
        (L = [] ∨ (L.map CurveSegment.start).head? = some cs)) := by
  intro events
  induction events with
  | nil =>
      intro c cs L cOut hwp hok
      simp only [dayLoop, gt_iff_lt] at hok
      by_cases hgap : 0 < hoursBetween cs flight.end_
      · rw [if_pos hgap] at hok
        split at hok
        · simp at hok
        · simp only [Except.ok.injEq, Prod.mk.injEq] at hok
          obtain ⟨hL, -⟩ := hok
          subst hL
          refine ⟨by simp, Or.inr ?_⟩
          simp [CurveSegment.start]
      · rw [if_neg hgap] at hok
        simp only [Except.ok.injEq, Prod.mk.injEq] at hok
        obtain ⟨hL, -⟩ := hok
        subst hL
        exact ⟨by simp, Or.inl rfl⟩
  | cons e rest ih =>
      intro c cs L cOut hwp hok
      obtain ⟨hcs, hee, hef, hwp'⟩ := hwp
      simp only [dayLoop, gt_iff_lt] at hok
      split at hok
      · simp at hok
      split at hok
      · simp at hok
      rename_i hle segs cOut' heq
      simp only [Except.ok.injEq, Prod.mk.injEq] at hok
      obtain ⟨hL, -⟩ := hok
      obtain ⟨ihChain, ihHead⟩ := ih _ e.end_ segs cOut' hwp' heq
      have hheadcond : ∀ b ∈ (segs.map CurveSegment.start).head?, e.start < b := by
        intro b hb
        rcases ihHead with hnil | hhead
        · subst hnil; simp at hb
        · rw [hhead] at hb
          simp only [Option.mem_def, Option.some.injEq] at hb
          subst hb
          exact hee
      by_cases hgap : 0 < hoursBetween cs e.start
      · rw [if_pos hgap] at hL
        subst hL
        refine ⟨?_, Or.inr ?_⟩
        · simp only [List.singleton_append, List.map_cons, CurveSegment.start]
          exact List.chain'_cons.mpr
            ⟨(hoursBetween_pos_iff cs e.start).mp hgap,
             chain'_lt_cons_of_head _ _ ihChain hheadcond⟩
        · simp [CurveSegment.start]
      · rw [if_neg hgap] at hL
        rw [List.nil_append] at hL
        subst hL
        have hstart : e.start = cs :=
          le_antisymm
            (not_lt.mp fun hlt => hgap ((hoursBetween_pos_iff _ _).mpr hlt)) hcs
        refine ⟨?_, Or.inr ?_⟩
        · simp only [List.map_cons, CurveSegment.start]
          exact chain'_lt_cons_of_head _ _ ihChain hheadcond
        · simp [CurveSegment.start, hstart]

/-- C10: whenever `generateCurveSegments` returns normally on a valid
flight with non-degenerate events, the returned segment list is non-empty
(so the reconciliation access to the last segment is well-defined), the
first segment starts at the flight start, and the segment start instants
are strictly increasing in list order. -/
theorem generateCurveSegments_order (t : CurveTemplate) (flight : FlightDetails)
    (segs : List CurveSegment)
    (hev : ∀ e ∈ t.events, e.start < e.end_)
    (h : t.generateCurveSegments flight = .ok segs) :
    segs ≠ [] ∧ (segs.map CurveSegment.start).head? = some flight.start ∧
      (segs.map CurveSegment.start).Chain' (· < ·) := by
  unfold CurveTemplate.generateCurveSegments at h
  cases hchk : t.checkDateRanges flight with
  | error e => rw [hchk] at h; exact absurd h (by simp)
  | ok u =>
      cases u
      rw [hchk] at h
      cases hpart : t.partitionEvents flight
          (GoalContext.init t.goalType flight.impressionGoal) with
      | error e => rw [hpart] at h; exact absurd h (by simp)
      | ok r =>
          obtain ⟨L, c⟩ := r
          rw [hpart] at h
          obtain ⟨hmap, hres_ne, hsegs_ne⟩ :=
            reconcile_ok_starts (resolveSegments c L).2 (resolveSegments c L).1 segs h
          have hwp : wellPlaced flight.end_ flight.start t.events :=
            checkDateRangesLoop_wellPlaced flight t.events none hchk hev
          have hshape : (L.map CurveSegment.start).Chain' (· < ·) ∧
              (L = [] ∨ (L.map CurveSegment.start).head? = some flight.start) := by
            unfold CurveTemplate.partitionEvents at hpart
            cases hgt : t.goalType with
            | TOTAL =>
                simp only [hgt, CurveTemplate.processEventsByTotal] at hpart
                exact totalLoop_shape flight t.events _ flight.start L c hwp hpart
            | DAY =>
                simp only [hgt, CurveTemplate.processEventsByDay] at hpart
                exact dayLoop_shape flight _ t.events _ flight.start L c hwp hpart
          have hstartmap : segs.map CurveSegment.start = L.map CurveSegment.start := by
            rw [hmap, resolveSegments_map_start]
          have hL_ne : L ≠ [] := by
            intro hnil
            apply hres_ne
            rw [hnil]
            rfl
          refine ⟨hsegs_ne, ?_, ?_⟩
          · rw [hstartmap]
            rcases hshape.2 with hnil | hhead
            · exact absurd hnil hL_ne
            · exact hhead
          · rw [hstartmap]
            exact hshape.1

/-- C10 witness: the order properties evaluated on a one-hour flight with
no events. -/
theorem generateCurveSegments_order_witness :
    [CurveSegment.unscheduled "Post-Events" 0 1 100] ≠ [] ∧
    (([CurveSegment.unscheduled "Post-Events" 0 1 100]).map
      CurveSegment.start).head? = some 0 ∧
    (([CurveSegment.unscheduled "Post-Events" 0 1 100]).map
      CurveSegment.start).Chain' (· < ·) :=
  generateCurveSegments_order ⟨[], .TOTAL⟩ ⟨⟨0, 3600000⟩, 100⟩
    [CurveSegment.unscheduled "Post-Events" 0 1 100]
    (by simp) (by
      norm_num [CurveTemplate.generateCurveSegments, CurveTemplate.checkDateRanges,
        checkDateRangesLoop, CurveTemplate.partitionEvents,
        CurveTemplate.processEventsByTotal, totalLoop, hoursBetween,
        MILLISECONDS_PER_HOUR, resolveSegments, CurveSegment.calculateGoal,
        reconcile, GoalContext.init, mathAbs, TOTAL_PERCENT_REQUIRED,
        PERCENT_ERROR_THRESHOLD, CurveSegment.setGoalPercent,
        CurveSegment.goalPercent])

/-- C5: after all segment percentages are resolved, `generateCurveSegments`
fails with "Total goal percent must equal 100" if and only if the absolute
difference between the summed resolved percentages and 100 exceeds the
tolerance `PERCENT_ERROR_THRESHOLD = 0.001`; otherwise it adds the signed
difference to the `goalPercent` of the last segment in emission order (and
of no other segment), making the stored total exactly 100. -/
theorem generateCurveSegments_reconciliation (t : CurveTemplate)
    (flight : FlightDetails) (L : List CurveSegment) (c : GoalContext)
    (last : CurveSegment)
    (hchk : t.checkDateRanges flight = .ok ())
    (hpart : t.partitionEvents flight
      (GoalContext.init t.goalType flight.impressionGoal) = .ok (L, c))
    (hlast : (resolveSegments c L).2.getLast? = some last) :
    PERCENT_ERROR_THRESHOLD = 1 / 1000 ∧
    (t.generateCurveSegments flight =
        .error (.domainError "Total goal percent must equal 100") ↔
      |100 - (resolveSegments c L).1| > PERCENT_ERROR_THRESHOLD) ∧
    (¬ |100 - (resolveSegments c L).1| > PERCENT_ERROR_THRESHOLD →
      t.generateCurveSegments flight =
        .ok ((resolveSegments c L).2.dropLast ++
          [last.setGoalPercent
            (last.goalPercent + (100 - (resolveSegments c L).1))]) ∧
      (((resolveSegments c L).2.dropLast ++
          [last.setGoalPercent
            (last.goalPercent + (100 - (resolveSegments c L).1))]).map
        CurveSegment.goalPercent).sum = 100) := by
  have hgen : t.generateCurveSegments flight =
      reconcile (resolveSegments c L).2 (resolveSegments c L).1 := by
    unfold CurveTemplate.generateCurveSegments
    rw [hchk, hpart]
  have habs : |(100:ℚ) - (resolveSegments c L).1| =
      mathAbs (TOTAL_PERCENT_REQUIRED - (resolveSegments c L).1) := by
    rw [mathAbs_eq_abs, TOTAL_PERCENT_REQUIRED]
  refine ⟨rfl, ?_, ?_⟩
  · rw [hgen, habs, reconcile_eq]
    by_cases hth : mathAbs (TOTAL_PERCENT_REQUIRED - (resolveSegments c L).1) >
        PERCENT_ERROR_THRESHOLD
    · rw [if_pos hth]
      exact iff_of_true rfl hth
    · rw [if_neg hth, hlast]
      exact iff_of_false (by simp) hth
  · intro hth
    rw [habs] at hth
    have hrec : reconcile (resolveSegments c L).2 (resolveSegments c L).1 =
        .ok ((resolveSegments c L).2.dropLast ++
          [last.setGoalPercent
            (last.goalPercent + (100 - (resolveSegments c L).1))]) := by
      rw [reconcile_eq, if_neg hth, hlast]
      simp [TOTAL_PERCENT_REQUIRED]
    refine ⟨by rw [hgen, hrec], ?_⟩
    exact reconcile_ok_sum _ _ _ (resolveSegments_fst_eq_sum c L).symm hrec

/-- C5 witness: the reconciliation dichotomy evaluated on a one-hour
flight with no events and a total that resolves to exactly 100. -/
theorem generateCurveSegments_reconciliation_witness :
    (CurveTemplate.generateCurveSegments ⟨[], .TOTAL⟩ ⟨⟨0, 3600000⟩, 100⟩ =
        .error (.domainError "Total goal percent must equal 100") ↔
      |100 - (resolveSegments ⟨.TOTAL, 100, 1, 0, 100⟩
          [CurveSegment.unscheduled "Post-Events" 0 1 0]).1| >
        PERCENT_ERROR_THRESHOLD) :=
  (generateCurveSegments_reconciliation ⟨[], .TOTAL⟩ ⟨⟨0, 3600000⟩, 100⟩
      [CurveSegment.unscheduled "Post-Events" 0 1 0] ⟨.TOTAL, 100, 1, 0, 100⟩
      (CurveSegment.unscheduled "Post-Events" 0 1 100)
      rfl
      (by norm_num [CurveTemplate.partitionEvents,
        CurveTemplate.processEventsByTotal, totalLoop, hoursBetween,
        MILLISECONDS_PER_HOUR, GoalContext.init])
      (by norm_num [resolveSegments, CurveSegment.calculateGoal])).2.1

end CurveSmith
